import Mathlib

/-!
Formal model of the wire protocol and control logic of the `uqfacedetect`
server (`facedetect.c`) and the `uqfaceclient` client (`uqfaceclient.c`).

Bytes are modelled as natural numbers (values 0..255 in every stream the
programs produce); a socket stream is a `List Nat` and reading consumes a
prefix of the list.  The image-processing pipeline (OpenCV decode, face
detection, drawing) is external to the protocol logic and is abstracted
where a claim needs the request loop; every read, length check and error
frame is modelled exactly as the C code performs it.
-/

/-- The 32-bit magic value `PREFIX` (facedetect.c line 34, uqfaceclient.c
line 29): `0x23107231`. -/
def MAGICVAL : Nat := 0x23107231

/-- The four magic bytes in transmission order, `0x31 0x72 0x10 0x23`:
the little-endian encoding of `MAGICVAL`.  These are the bytes the client
stores in `buffer[0..3]` (uqfaceclient.c lines 266-269). -/
def magicBytes : List Nat := [0x31, 0x72, 0x10, 0x23]

/-- Little-endian 32-bit encoding of a natural number, as produced by the
shift-and-mask sequence in `create_request` (uqfaceclient.c lines 276-279)
and by `htole32` on the server side. -/
def le32 (n : Nat) : List Nat :=
  [n % 256, n / 256 % 256, n / 65536 % 256, n / 16777216 % 256]

/-- Little-endian 32-bit decoding of four bytes, as performed by `le32toh`
on a 4-byte read (facedetect.c lines 809, 853, 611). -/
def le32dec : List Nat → Nat
  | [a, b, c, d] => a + 256 * b + 65536 * c + 16777216 * d
  | _ => 0

/-- ASCII bytes of a string literal; used to relate the byte-list payloads
below to the C string literals they come from. -/
def asciiBytes (s : String) : List Nat := s.data.map (fun c => c.toNat)

/-- ASCII bytes of the C string literal `"invalid message"`
(facedetect.c line 556). -/
def invalidMessageBytes : List Nat :=
  [105, 110, 118, 97, 108, 105, 100, 32, 109, 101, 115, 115, 97, 103, 101]

/-- ASCII bytes of the C string literal `"invalid operation type"`
(facedetect.c line 718). -/
def invalidOperationBytes : List Nat :=
  [105, 110, 118, 97, 108, 105, 100, 32, 111, 112, 101, 114, 97, 116, 105,
   111, 110, 32, 116, 121, 112, 101]

/-- ASCII bytes of the C string literal `"image is 0 bytes"`
(facedetect.c line 576). -/
def zeroImageBytes : List Nat :=
  [105, 109, 97, 103, 101, 32, 105, 115, 32, 48, 32, 98, 121, 116, 101, 115]

/-- ASCII bytes of the C string literal `"image too large"`
(facedetect.c line 584). -/
def tooLargeBytes : List Nat :=
  [105, 109, 97, 103, 101, 32, 116, 111, 111, 32, 108, 97, 114, 103, 101]

/-- The bytes emitted by `send_output(clientfd, 3, payload, len)`
(facedetect.c lines 371-380): magic bytes, operation byte 3, the payload
length little-endian, then the payload itself with no terminator. -/
def errorFrame (payload : List Nat) : List Nat :=
  magicBytes ++ [3] ++ le32 payload.length ++ payload

/-- `read_bytes(fd, buf, n)` (facedetect.c lines 304-315): succeeds with
exactly `n` bytes, or reports failure (-1) when the stream ends short. -/
def readBytes (n : Nat) (input : List Nat) : Option (List Nat × List Nat) :=
  if n ≤ input.length then some (input.take n, input.drop n) else none

/-- A single-byte read, the `read_bytes(fd, &operation, 1)` special case. -/
def read1 : List Nat → Option (Nat × List Nat)
  | [] => none
  | b :: rest => some (b, rest)

/-- `create_request` (uqfaceclient.c lines 258-293): layout of the request
buffer the client sends.  The C code truncates `imageOne.length` into a
`uint32_t` before the shift-and-mask encoding; `le32` performs the same
modular reduction byte by byte, so `le32 imageOne.length` is exactly the
four bytes the C code stores. -/
def create_request (imageOne imageTwo : List Nat) (replaceGiven : Bool) :
    List Nat :=
  magicBytes ++ [if replaceGiven then 1 else 0]
    ++ le32 imageOne.length ++ imageOne
    ++ if replaceGiven then le32 imageTwo.length ++ imageTwo else []

/-- `readBytes` on a stream that begins with an `n`-byte block returns that
block and the remainder. -/
theorem readBytes_append (n : Nat) (xs ys : List Nat) (h : xs.length = n) :
    readBytes n (xs ++ ys) = some (xs, ys) := by
  subst h
  simp [readBytes]

/-- Decoding the little-endian encoding recovers the value modulo 2^32. -/
theorem le32dec_le32 (n : Nat) : le32dec (le32 n) = n % 4294967296 := by
  simp [le32, le32dec]
  omega

/-- Result of one server-side read step on a connection: either the value
read plus the remaining stream, or an error frame sent before closing, or
the canned bad-magic response file path (`bad_request`, facedetect.c lines
700-708: it increments `badRequests`, streams the pre-configured response
file verbatim, half-closes and closes). -/
inductive ReadResult (α : Type) where
  | ok (val : α) (rest : List Nat)
  | err (frame : List Nat)
  | canned
deriving DecidableEq

/-- `check_prefix` (facedetect.c lines 802-814): read four bytes; a short
read sends the `invalid message` error frame; a full read that decodes to
a value other than `MAGICVAL` takes the canned-file `bad_request` path. -/
def check_magic (input : List Nat) : ReadResult Unit :=
  match readBytes 4 input with
  | none => ReadResult.err (errorFrame invalidMessageBytes)
  | some (mw, rest) =>
      if le32dec mw = MAGICVAL then ReadResult.ok () rest
      else ReadResult.canned

/-- `check_operation` (facedetect.c lines 823-835): read one byte; a short
read sends `invalid message`; a value greater than 1 sends
`invalid operation type`. -/
def check_operation (input : List Nat) : ReadResult Nat :=
  match read1 input with
  | none => ReadResult.err (errorFrame invalidMessageBytes)
  | some (op, rest) =>
      if 1 < op then ReadResult.err (errorFrame invalidOperationBytes)
      else ReadResult.ok op rest

/-- `check_image_size` (facedetect.c lines 572-591): size 0 sends the
`image is 0 bytes` frame; a size exceeding the configured cap (when the
cap field is non-zero) sends `image too large`; otherwise the size is
accepted.  Returns the frame sent, if any. -/
def check_image_size (imageSize maxSize : Nat) : Option (List Nat) :=
  if imageSize = 0 then some (errorFrame zeroImageBytes)
  else if maxSize ≠ 0 ∧ maxSize < imageSize then
    some (errorFrame tooLargeBytes)
  else none

/-- `determine_image_size` (facedetect.c lines 844-858): read four bytes
little-endian (short read sends `invalid message`), then validate the
value with `check_image_size`. -/
def determine_image_size (maxSize : Nat) (input : List Nat) :
    ReadResult Nat :=
  match readBytes 4 input with
  | none => ReadResult.err (errorFrame invalidMessageBytes)
  | some (szb, rest) =>
      match check_image_size (le32dec szb) maxSize with
      | some f => ReadResult.err f
      | none => ReadResult.ok (le32dec szb) rest

/-- The payload read in `task_executor` (facedetect.c lines 927-932) and
in `create_replacement` (lines 615-620): read exactly `size` bytes; a
short read sends `invalid message`. -/
def read_image (size : Nat) (input : List Nat) : ReadResult (List Nat) :=
  match readBytes size input with
  | none => ReadResult.err (errorFrame invalidMessageBytes)
  | some (img, rest) => ReadResult.ok img rest

/-- Sequencing of server read steps: on success continue with the value
and the remaining stream, on an error frame or the canned-file path stop.
This is exactly the early-return control flow of `task_executor`. -/
def bindR {α β : Type} (r : ReadResult α)
    (f : α → List Nat → ReadResult β) : ReadResult β :=
  match r with
  | ReadResult.ok v rest => f v rest
  | ReadResult.err fr => ReadResult.err fr
  | ReadResult.canned => ReadResult.canned

/-- One request-header-and-primary read as performed by one iteration of
`task_executor` (facedetect.c lines 915-932): magic check, operation
check, primary length check, primary payload read, in that order. -/
def readRequest (maxSize : Nat) (input : List Nat) :
    ReadResult (Nat × List Nat) :=
  bindR (check_magic input) (fun _ r1 =>
    bindR (check_operation r1) (fun op r2 =>
      bindR (determine_image_size maxSize r2) (fun size r3 =>
        bindR (read_image size r3) (fun img r4 =>
          ReadResult.ok (op, img) r4))))

/-- The socket reads of `create_replacement` (facedetect.c lines 602-620):
four bytes of secondary length (short read sends `invalid message`),
`check_image_size` on the value, then the secondary payload.  In the
program these reads happen inside `execute_replacement` after the primary
image has been decoded and faces found; the bytes consumed from the
stream are exactly these. -/
def create_replacement_read (maxSize : Nat) (input : List Nat) :
    ReadResult (List Nat) :=
  bindR (determine_image_size maxSize input) (fun size rest =>
    read_image size rest)

/-- A fully decoded request as the server recovers it. -/
structure DecodedRequest where
  op : Nat
  image1 : List Nat
  image2 : Option (List Nat)
deriving DecidableEq

/-- The server's complete read path for one request: `readRequest` for the
header and primary image, followed for operation 1 by the secondary-image
reads of `create_replacement`. -/
def decodeRequest (maxSize : Nat) (input : List Nat) :
    ReadResult DecodedRequest :=
  bindR (readRequest maxSize input) (fun r rest =>
    if r.1 = 1 then
      bindR (create_replacement_read maxSize rest) (fun img2 rest2 =>
        ReadResult.ok ⟨r.1, r.2, some img2⟩ rest2)
    else ReadResult.ok ⟨r.1, r.2, none⟩ rest)

/-- C2: the request built by `create_request` is exactly `9 + len1` bytes
without a replace file and `9 + len1 + 4 + len2` bytes with one, and its
layout is the magic bytes, the operation byte (1 exactly when a replace
file was given, else 0), `len1` little-endian, the primary bytes, and for
operation 1 `len2` little-endian followed by the secondary bytes. -/
theorem create_request_layout (i1 i2 : List Nat) :
    (create_request i1 i2 false).length = 9 + i1.length ∧
    (create_request i1 i2 true).length = 9 + i1.length + 4 + i2.length ∧
    create_request i1 i2 false
      = magicBytes ++ [0] ++ le32 i1.length ++ i1 ∧
    create_request i1 i2 true
      = magicBytes ++ [1] ++ le32 i1.length ++ i1
          ++ le32 i2.length ++ i2 ∧
    magicBytes = [0x31, 0x72, 0x10, 0x23] := by
  refine ⟨?_, ?_, ?_, ?_, rfl⟩ <;>
    simp [create_request, magicBytes, le32] <;> omega

/-- Sequencing after a successful read continues with the value. -/
theorem bindR_ok {α β : Type} (v : α) (rest : List Nat)
    (f : α → List Nat → ReadResult β) :
    bindR (ReadResult.ok v rest) f = f v rest := rfl

/-- Sequencing after an error frame stops with that frame. -/
theorem bindR_err {α β : Type} (fr : List Nat)
    (f : α → List Nat → ReadResult β) :
    bindR (ReadResult.err fr) f = ReadResult.err fr := rfl

/-- Sequencing after the canned-file path stops on that path. -/
theorem bindR_canned {α β : Type} (f : α → List Nat → ReadResult β) :
    bindR ReadResult.canned f = ReadResult.canned := rfl

/-- A stream beginning with the magic bytes passes `check_magic`. -/
theorem check_magic_ok (rest : List Nat) :
    check_magic (magicBytes ++ rest) = ReadResult.ok () rest := by
  have h := readBytes_append 4 magicBytes rest (by rfl)
  have hm : le32dec magicBytes = MAGICVAL := by decide
  simp [check_magic, h, hm]

/-- A stream of fewer than four bytes fails `check_magic` with the
`invalid message` frame. -/
theorem check_magic_short (input : List Nat) (h : input.length < 4) :
    check_magic input = ReadResult.err (errorFrame invalidMessageBytes) := by
  simp [check_magic, readBytes, Nat.not_le.mpr h]

/-- Four available bytes that do not decode to the magic value take the
canned-file path. -/
theorem check_magic_mismatch (input : List Nat) (h4 : 4 ≤ input.length)
    (hb : le32dec (input.take 4) ≠ MAGICVAL) :
    check_magic input = ReadResult.canned := by
  simp [check_magic, readBytes, h4, hb]

/-- A valid operation byte is accepted. -/
theorem check_operation_ok (op : Nat) (h : op ≤ 1) (rest : List Nat) :
    check_operation (op :: rest) = ReadResult.ok op rest := by
  simp [check_operation, read1, Nat.not_lt.mpr h]

/-- An operation byte above 1 draws the `invalid operation type` frame. -/
theorem check_operation_bad (op : Nat) (h : 1 < op) (rest : List Nat) :
    check_operation (op :: rest)
      = ReadResult.err (errorFrame invalidOperationBytes) := by
  simp [check_operation, read1, h]

/-- An in-range non-zero length within the cap is accepted by
`determine_image_size`. -/
theorem determine_image_size_ok (maxSize n : Nat) (h0 : 0 < n)
    (hc : n ≤ maxSize) (hlt : n < 4294967296) (rest : List Nat) :
    determine_image_size maxSize (le32 n ++ rest) = ReadResult.ok n rest := by
  have h := readBytes_append 4 (le32 n) rest (by rfl)
  have hd : le32dec (le32 n) = n := by
    rw [le32dec_le32]; exact Nat.mod_eq_of_lt hlt
  have hcs : check_image_size n maxSize = none := by
    unfold check_image_size
    rw [if_neg (by omega), if_neg (by omega)]
  simp [determine_image_size, h, hd, hcs]

/-- A declared length of zero draws the `image is 0 bytes` frame. -/
theorem determine_image_size_zero (maxSize : Nat) (rest : List Nat) :
    determine_image_size maxSize (le32 0 ++ rest)
      = ReadResult.err (errorFrame zeroImageBytes) := by
  have h := readBytes_append 4 (le32 0) rest (by rfl)
  have hd : le32dec (le32 0) = 0 := by decide
  have hcs : check_image_size 0 maxSize = some (errorFrame zeroImageBytes) := by
    unfold check_image_size
    rw [if_pos rfl]
  simp [determine_image_size, h, hd, hcs]

/-- A declared length above a non-zero cap draws the `image too large`
frame. -/
theorem determine_image_size_large (maxSize n : Nat) (hm : maxSize ≠ 0)
    (hn : maxSize < n) (hlt : n < 4294967296) (rest : List Nat) :
    determine_image_size maxSize (le32 n ++ rest)
      = ReadResult.err (errorFrame tooLargeBytes) := by
  have h := readBytes_append 4 (le32 n) rest (by rfl)
  have hd : le32dec (le32 n) = n := by
    rw [le32dec_le32]; exact Nat.mod_eq_of_lt hlt
  have hcs : check_image_size n maxSize = some (errorFrame tooLargeBytes) := by
    unfold check_image_size
    rw [if_neg (by omega), if_pos ⟨hm, hn⟩]
  simp [determine_image_size, h, hd, hcs]

/-- Reading a payload that is fully present succeeds. -/
theorem read_image_ok (img rest : List Nat) :
    read_image img.length (img ++ rest) = ReadResult.ok img rest := by
  have h := readBytes_append img.length img rest (by rfl)
  simp [read_image, h]

/-- Reading a payload from a stream that is too short draws the
`invalid message` frame. -/
theorem read_image_short (size : Nat) (input : List Nat)
    (h : input.length < size) :
    read_image size input = ReadResult.err (errorFrame invalidMessageBytes) := by
  simp [read_image, readBytes, Nat.not_le.mpr h]

/-- A well-formed header and primary image are read back intact. -/
theorem readRequest_ok (maxSize op : Nat) (img rest : List Nat)
    (hop : op ≤ 1) (h0 : 0 < img.length) (hc : img.length ≤ maxSize)
    (hm : maxSize < 4294967296) :
    readRequest maxSize
        (magicBytes ++ op :: (le32 img.length ++ (img ++ rest)))
      = ReadResult.ok (op, img) rest := by
  unfold readRequest
  rw [check_magic_ok, bindR_ok, check_operation_ok op hop, bindR_ok,
    determine_image_size_ok maxSize img.length h0 hc (by omega) (img ++ rest),
    bindR_ok, read_image_ok, bindR_ok]

/-- C1: on a connection whose four magic bytes match, the server validates
in order: an operation byte other than 0 or 1 draws the frame whose
payload is exactly `invalid operation type` (whatever the remaining bytes
hold); otherwise a little-endian primary length of 0 draws
`image is 0 bytes`; otherwise a length above the configured cap draws
`image too large`; otherwise a payload shorter than the declared length
draws `invalid message`.  Every such frame is the magic bytes, operation
byte 3, the payload length little-endian and the bare payload, which ends
neither in a newline nor in a NUL byte. -/
theorem server_request_validation (maxSize : Nat) (hm : maxSize ≠ 0)
    (hms : maxSize < 4294967296) :
    (∀ (op : Nat) (rest : List Nat), 1 < op →
      readRequest maxSize (magicBytes ++ op :: rest)
        = ReadResult.err (errorFrame invalidOperationBytes)) ∧
    (∀ (op : Nat) (rest : List Nat), op ≤ 1 →
      readRequest maxSize (magicBytes ++ op :: (le32 0 ++ rest))
        = ReadResult.err (errorFrame zeroImageBytes)) ∧
    (∀ (op n : Nat) (rest : List Nat), op ≤ 1 → maxSize < n →
      n < 4294967296 →
      readRequest maxSize (magicBytes ++ op :: (le32 n ++ rest))
        = ReadResult.err (errorFrame tooLargeBytes)) ∧
    (∀ (op n : Nat) (rest : List Nat), op ≤ 1 → 0 < n → n ≤ maxSize →
      rest.length < n →
      readRequest maxSize (magicBytes ++ op :: (le32 n ++ rest))
        = ReadResult.err (errorFrame invalidMessageBytes)) ∧
    (∀ p : List Nat,
      p = invalidOperationBytes ∨ p = zeroImageBytes ∨
        p = tooLargeBytes ∨ p = invalidMessageBytes →
      errorFrame p = magicBytes ++ [3] ++ le32 p.length ++ p ∧
        p.getLast? ≠ some 10 ∧ p.getLast? ≠ some 0) := by
  refine ⟨?_, ?_, ?_, ?_, ?_⟩
  · intro op rest hop
    unfold readRequest
    rw [check_magic_ok, bindR_ok, check_operation_bad op hop, bindR_err]
  · intro op rest hop
    unfold readRequest
    rw [check_magic_ok, bindR_ok, check_operation_ok op hop, bindR_ok,
      determine_image_size_zero, bindR_err]
  · intro op n rest hop hn hn32
    unfold readRequest
    rw [check_magic_ok, bindR_ok, check_operation_ok op hop, bindR_ok,
      determine_image_size_large maxSize n hm hn hn32 rest, bindR_err]
  · intro op n rest hop h0 hc hshort
    unfold readRequest
    rw [check_magic_ok, bindR_ok, check_operation_ok op hop, bindR_ok,
      determine_image_size_ok maxSize n h0 hc (by omega) rest, bindR_ok,
      read_image_short n rest hshort, bindR_err]
  · intro p hp
    rcases hp with h | h | h | h <;> subst h <;>
      exact ⟨rfl, by decide, by decide⟩

/-- Concrete instance of `server_request_validation`: with cap 5, a
request whose operation byte is 9 draws the `invalid operation type`
frame. -/
theorem server_request_validation_witness :
    readRequest 5 (magicBytes ++ 9 :: [])
      = ReadResult.err (errorFrame invalidOperationBytes) :=
  (server_request_validation 5 (by decide) (by norm_num)).1 9 [] (by decide)

/-- C3: encoding a valid request with the client's `create_request` and
decoding the bytes with the server's read path recovers the operation,
the image bytes (hence the lengths) and leaves nothing unread. -/
theorem request_roundtrip (maxSize : Nat) (i1 i2 : List Nat) (r : Bool)
    (hm : maxSize ≠ 0) (hms : maxSize < 4294967296)
    (h1 : 0 < i1.length) (h1c : i1.length ≤ maxSize)
    (h2 : r = true → 0 < i2.length ∧ i2.length ≤ maxSize) :
    decodeRequest maxSize (create_request i1 i2 r)
      = ReadResult.ok
          ⟨if r then 1 else 0, i1, if r then some i2 else none⟩ [] := by
  cases r with
  | false =>
      have hcr : create_request i1 i2 false
          = magicBytes ++ 0 :: (le32 i1.length ++ (i1 ++ [])) := by
        simp [create_request]
      rw [hcr]
      unfold decodeRequest
      rw [readRequest_ok maxSize 0 i1 [] (by omega) h1 h1c hms, bindR_ok]
      simp
  | true =>
      obtain ⟨h20, h2c⟩ := h2 rfl
      have hcr : create_request i1 i2 true
          = magicBytes
              ++ 1 :: (le32 i1.length ++ (i1 ++ (le32 i2.length ++ i2))) := by
        simp [create_request]
      rw [hcr]
      unfold decodeRequest
      rw [readRequest_ok maxSize 1 i1 (le32 i2.length ++ i2) (by omega)
        h1 h1c hms, bindR_ok]
      have hsec : create_replacement_read maxSize (le32 i2.length ++ i2)
          = ReadResult.ok i2 [] := by
        unfold create_replacement_read
        have hri := read_image_ok i2 []
        rw [List.append_nil] at hri
        rw [determine_image_size_ok maxSize i2.length h20 h2c (by omega) i2,
          bindR_ok, hri]
      simp [hsec, bindR_ok]

/-- Concrete instance of `request_roundtrip`: a replace request with a
one-byte primary and a one-byte secondary decodes back to itself. -/
theorem request_roundtrip_witness :
    decodeRequest 100 (create_request [7] [8] true)
      = ReadResult.ok ⟨1, [7], some [8]⟩ [] :=
  request_roundtrip 100 [7] [8] true (by decide) (by norm_num) (by decide)
    (by decide) (fun _ => ⟨by decide, by decide⟩)

/-- Observable emissions of the per-connection worker: an error frame sent
by `send_output` with operation byte 3, the canned bad-magic response-file
path of `bad_request` (facedetect.c lines 700-708: `badRequests` is
incremented, the pre-configured file is streamed verbatim, the socket is
half-closed and closed), or the outcome of `image_executor` for request
number `k` (`true`: an operation-2 image response was sent and the loop
continues; `false`: image processing failed, an error frame was sent
inside `image_executor` and the loop ends). -/
inductive Emit where
  | frame (bytes : List Nat)
  | canned
  | processed (k : Nat) (ok : Bool)
deriving DecidableEq

/-- The worker loop of `task_executor` (facedetect.c lines 912-945).  Each
iteration reads one request header and primary payload with `readRequest`
and then runs `image_executor`, which is external image processing
(OpenCV decode, detection, drawing, re-encode) abstracted as `process`:
given the request number, operation byte, primary image and remaining
stream it reports success and the stream left after any secondary-image
reads (`create_replacement`; for operation 0 the code reads nothing, so a
faithful oracle leaves the stream unchanged).  On success the loop
repeats on the remaining stream; any error ends the connection.  `fuel`
bounds the number of iterations considered. -/
def task_executor (maxSize : Nat)
    (process : Nat → Nat → List Nat → List Nat → Bool × List Nat)
    (k : Nat) (input : List Nat) : Nat → List Emit
  | 0 => []
  | fuel + 1 =>
      match readRequest maxSize input with
      | ReadResult.err f => [Emit.frame f]
      | ReadResult.canned => [Emit.canned]
      | ReadResult.ok (op, img) rest =>
          match process k op img rest with
          | (true, rest2) =>
              Emit.processed k true
                :: task_executor maxSize process (k + 1) rest2 fuel
          | (false, _) => [Emit.processed k false]

/-- An image-processing oracle that always succeeds without touching the
stream, as a detect-only workload does. -/
def okProcess : Nat → Nat → List Nat → List Nat → Bool × List Nat :=
  fun _ _ _ rest => (true, rest)

/-- Helper: `readRequest` on a stream whose first four bytes are fully
available but decode to a non-magic value takes the canned-file path. -/
theorem readRequest_mismatch (maxSize : Nat) (input : List Nat)
    (h4 : 4 ≤ input.length) (hb : le32dec (input.take 4) ≠ MAGICVAL) :
    readRequest maxSize input = ReadResult.canned := by
  unfold readRequest
  rw [check_magic_mismatch input h4 hb, bindR_canned]

/-- Helper: `readRequest` on an exhausted stream (end of file at the
request boundary, zero bytes available) draws the `invalid message`
frame. -/
theorem readRequest_eof (maxSize : Nat) :
    readRequest maxSize []
      = ReadResult.err (errorFrame invalidMessageBytes) := by
  unfold readRequest
  rw [check_magic_short [] (by decide), bindR_err]

/-- C4 fails on the code: after a successful first request on a
connection, four mismatching bytes at the start of the second request do
trigger the canned-file path.  With an always-succeeding image pipeline,
a valid one-byte detect request followed by the bytes `00 00 00 00`
makes the worker emit the operation-2 response for request 0 and then the
canned file, because `task_executor` calls `check_prefix` at the top of
every loop iteration, not only on the first. -/
theorem bad_magic_second_request_counterexample :
    task_executor 100 okProcess 0
        (create_request [170] [] false ++ [0, 0, 0, 0]) 2
      = [Emit.processed 0 true, Emit.canned] := by decide

/-- C4 amended: the server takes the canned-file path (sending the
verbatim bad-magic response file, incrementing `malformedRequests`,
half-closing and closing) exactly when the four bytes at the start of a
request — any request on the connection, not only the first — are fully
read but do not decode to the magic value, whatever the image-processing
outcomes were before that point. -/
theorem bad_magic_any_request (maxSize : Nat)
    (process : Nat → Nat → List Nat → List Nat → Bool × List Nat)
    (k fuel : Nat) (input : List Nat)
    (h4 : 4 ≤ input.length) (hb : le32dec (input.take 4) ≠ MAGICVAL) :
    task_executor maxSize process k input (fuel + 1) = [Emit.canned] := by
  rw [task_executor, readRequest_mismatch maxSize input h4 hb]

/-- Concrete instance of `bad_magic_any_request` at request index 3. -/
theorem bad_magic_any_request_witness :
    task_executor 1 okProcess 3 [0, 0, 0, 0] 1 = [Emit.canned] :=
  bad_magic_any_request 1 okProcess 3 0 [0, 0, 0, 0] (by decide) (by decide)

/-- C5 fails on the code: when the peer closes cleanly between requests
(end of file exactly at the request boundary, zero bytes of the next
request read), `read_bytes` returns -1, `check_prefix` calls
`invalid_message`, and the server sends the `invalid message` error frame
before closing — it does not close silently. -/
theorem eof_sends_frame_counterexample :
    task_executor 100 okProcess 0 [] 1
      = [Emit.frame (errorFrame invalidMessageBytes)] := by decide

/-- C5 amended: on end of file at the request boundary the server sends
an operation-3 frame with payload `invalid message` and then half-closes
and closes the connection. -/
theorem eof_at_boundary_sends_invalid_message (maxSize : Nat)
    (process : Nat → Nat → List Nat → List Nat → Bool × List Nat)
    (k fuel : Nat) :
    task_executor maxSize process k [] (fuel + 1)
      = [Emit.frame (errorFrame invalidMessageBytes)] := by
  rw [task_executor, readRequest_eof maxSize]

/-- `valid_cmd_line_number` (facedetect.c lines 98-121): a non-empty
string of decimal digits, optionally led by a single `+` that must be
followed by at least one digit. -/
def valid_cmd_line_number (s : String) : Bool :=
  match s.data with
  | [] => false
  | c :: rest =>
      if c = '+' then rest ≠ [] && rest.all Char.isDigit
      else (c :: rest).all Char.isDigit

/-- Numeric value of a validated command-line number: the value `atoi` or
`strtoul` computes on a digit string with an optional leading `+`. -/
def strNum (s : String) : Nat :=
  let digits : List Char :=
    match s.data with
    | '+' :: rest => rest
    | l => l
  digits.foldl (fun acc c => acc * 10 + (c.toNat - 48)) 0

/-- The parsed server command line
(the `CmdLineParams` struct, facedetect.c lines 45-50). -/
structure CmdLineParams where
  connectionLimit : Nat
  maxSize : Nat
  portnum : String
  portnumGiven : Bool
deriving DecidableEq

/-- The connectionlimit and maxsize checks of `parse_command_line`
(facedetect.c lines 147-167): each argument must be a valid number,
connectionlimit at most 10000 (`MAX_CONNECTIONS`), maxsize at most
`UINT32_MAX`, and a maxsize of 0 is replaced by `UINT32_MAX`
(lines 165-167).  `none` is the `command_line_error` path: the usage line
on stderr and exit code 19. -/
def parseLimitSize (a b : String) : Option (Nat × Nat) :=
  if valid_cmd_line_number a then
    if 10000 < strNum a then none
    else if valid_cmd_line_number b then
      if 4294967295 < strNum b then none
      else some (strNum a, if strNum b = 0 then 4294967295 else strNum b)
    else none
  else none

/-- `parse_command_line` (facedetect.c lines 140-180) applied to
`argv[1..]`: two or three arguments are required; after the
connectionlimit and maxsize checks, a third argument that is the empty
string is a `command_line_error` (line 169), one that is a valid number
of value 0 leaves the default port string `"0"` (lines 172-175), and any
other third argument becomes the port string.  `none` is the
`command_line_error` path (usage line, exit 19). -/
def parse_command_line : List String → Option CmdLineParams
  | [a, b] =>
      (parseLimitSize a b).map (fun p => ⟨p.1, p.2, ("0"), false⟩)
  | [a, b, c] =>
      (parseLimitSize a b).bind (fun p =>
        if c = ("") then none
        else if valid_cmd_line_number c && strNum c == 0 then
          some ⟨p.1, p.2, ("0"), false⟩
        else some ⟨p.1, p.2, c, true⟩)
  | _ => none

/-- A parsed command line whose maxsize argument was `"0"` carries the
cap `UINT32_MAX`. -/
theorem parse_zero_maxsize (a : String) (ps : CmdLineParams)
    (hp : parse_command_line [a, ("0")] = some ps) :
    ps.maxSize = 4294967295 := by
  have h1 : valid_cmd_line_number ("0") = true := by decide
  have h2 : strNum ("0") = 0 := by decide
  simp only [parse_command_line] at hp
  unfold parseLimitSize at hp
  rw [h1, h2] at hp
  norm_num at hp
  obtain ⟨x, y, ⟨hva, hle, hxa, hyb⟩, hps⟩ := hp
  subst hyb
  rw [← hps]

/-- C6: when the server is started with maxsize argument `"0"`, the
parsed cap is `UINT32_MAX`, and `check_image_size` never produces the
`image too large` frame for any 32-bit length. -/
theorem maxsize_zero_never_too_large (climit : String) (ps : CmdLineParams)
    (hp : parse_command_line [climit, ("0")] = some ps) :
    ∀ size : Nat, size < 4294967296 →
      check_image_size size ps.maxSize ≠ some (errorFrame tooLargeBytes) := by
  intro size hs
  rw [parse_zero_maxsize climit ps hp]
  unfold check_image_size
  by_cases h0 : size = 0
  · rw [if_pos h0]
    exact fun hcon => absurd hcon (by decide)
  · rw [if_neg h0, if_neg (by omega)]
    exact fun hcon => Option.noConfusion hcon

/-- Concrete instance of `maxsize_zero_never_too_large`: with the
command line `5 0`, a 7-byte image is not rejected as too large. -/
theorem maxsize_zero_never_too_large_witness :
    check_image_size 7
        ((⟨5, 4294967295, ("0"), false⟩ : CmdLineParams).maxSize)
      ≠ some (errorFrame tooLargeBytes) :=
  maxsize_zero_never_too_large ("5") ⟨5, 4294967295, ("0"), false⟩
    (by decide) 7 (by norm_num)

/-- C7 fails on the code: a portnum argument that is present but empty is
rejected by `parse_command_line` (facedetect.c line 169 calls
`command_line_error`, which prints the usage line and exits with code
19), while omitting the portnum parses successfully with the default
ephemeral port string `"0"` — the two are not treated the same. -/
theorem empty_portnum_counterexample :
    parse_command_line [("1"), ("5"), ("")] = none ∧
    parse_command_line [("1"), ("5")] = some ⟨1, 5, ("0"), false⟩ :=
  ⟨by decide, by decide⟩

/-- C7 amended: a present-but-empty portnum argument is a command-line
validation failure (usage line and exit code 19); only an omitted
portnum or one that is a valid number of value 0 yields the ephemeral
default, and `"0"` behaves exactly like omitting the argument. -/
theorem empty_portnum_rejected (a b : String) :
    parse_command_line [a, b, ("")] = none ∧
    parse_command_line [a, b, ("0")] = parse_command_line [a, b] := by
  constructor
  · simp only [parse_command_line]
    cases h : parseLimitSize a b with
    | none => rfl
    | some p => simp
  · simp only [parse_command_line]
    cases h : parseLimitSize a b with
    | none => rfl
    | some p =>
        simp [show valid_cmd_line_number ("0") = true from by decide,
          show strNum ("0") = 0 from by decide, Option.bind, Option.map]

/-- The client-related statistics counters (`Statistics`, facedetect.c
lines 60-67) plus a ghost count of connections accepted so far. -/
structure ServerStats where
  currClients : Nat
  prevClients : Nat
  acceptedTotal : Nat
deriving DecidableEq

/-- Atomic statistics updates of the accept loop and the workers, each
performed as one critical section under `statsLock`.  `accept` is
`new_connection` (facedetect.c lines 970-973): every accepted connection
increments `currClients` exactly once.  `workerExit` is
`update_client_stats` (lines 762-769), called exactly once at the end of
`task_executor` (line 942): it decrements `currClients` and increments
`prevClients`.  A worker only exists for a connection that was accepted
and is still counted in `currClients`, hence the guard. -/
inductive StatsStep : ServerStats → ServerStats → Prop where
  | accept (s : ServerStats) :
      StatsStep s ⟨s.currClients + 1, s.prevClients, s.acceptedTotal + 1⟩
  | workerExit (s : ServerStats) (h : 0 < s.currClients) :
      StatsStep s ⟨s.currClients - 1, s.prevClients + 1, s.acceptedTotal⟩

/-- Statistics states reachable from the zero-initialised record
(`Statistics stats = {0}`, facedetect.c line 1033). -/
inductive StatsReachable : ServerStats → Prop where
  | init : StatsReachable ⟨0, 0, 0⟩
  | step {s t : ServerStats} :
      StatsReachable s → StatsStep s t → StatsReachable t

/-- C8: in every reachable statistics state, `currClients` plus
`prevClients` equals the number of connections accepted so far. -/
theorem clients_conservation (s : ServerStats) (h : StatsReachable s) :
    s.currClients + s.prevClients = s.acceptedTotal := by
  induction h with
  | init => rfl
  | step hr hs ih =>
      cases hs with
      | accept => dsimp only; omega
      | workerExit hpos => dsimp only; omega

/-- Concrete instance of `clients_conservation` after one accept. -/
theorem clients_conservation_witness :
    (⟨1, 0, 1⟩ : ServerStats).currClients
        + (⟨1, 0, 1⟩ : ServerStats).prevClients
      = (⟨1, 0, 1⟩ : ServerStats).acceptedTotal :=
  clients_conservation ⟨1, 0, 1⟩
    (StatsReachable.step StatsReachable.init (StatsStep.accept ⟨0, 0, 0⟩))

/-- Events a worker performs on the cascade mutex and the detector. -/
inductive CascadeEvent where
  | lock
  | unlock
  | detect
deriving DecidableEq

/-- Cascade-mutex events of `find_faces` (facedetect.c lines 455-468):
the mutex is locked; on the early return for a NULL storage pointer the
function returns without calling the detector (and without unlocking);
otherwise `cvHaarDetectObjects` runs and the mutex is unlocked. -/
def find_faces_events (storageNull : Bool) : List CascadeEvent :=
  if storageNull then [CascadeEvent.lock]
  else [CascadeEvent.lock, CascadeEvent.detect, CascadeEvent.unlock]

/-- Cascade-mutex events of `draw_faces` (facedetect.c lines 478-515):
for each of the `numFaces` detected faces the mutex is locked,
`cvHaarDetectObjects` runs for the eyes, and the mutex is unlocked. -/
def draw_faces_events (numFaces : Nat) : List CascadeEvent :=
  (List.replicate numFaces
    [CascadeEvent.lock, CascadeEvent.detect, CascadeEvent.unlock]).flatten

/-- Checks that every detect event in a trace happens at a positive lock
depth, starting from the given depth: the thread holds the cascade mutex
whenever it calls the detector. -/
def guardedFrom (depth : Nat) : List CascadeEvent → Bool
  | [] => true
  | CascadeEvent.lock :: rest => guardedFrom (depth + 1) rest
  | CascadeEvent.unlock :: rest => guardedFrom (depth - 1) rest
  | CascadeEvent.detect :: rest => decide (0 < depth) && guardedFrom depth rest

/-- C9: every `cvHaarDetectObjects` call — the face detection in
`find_faces` and the eye detection in `draw_faces` — happens while the
cascade mutex is held, including on the early-return path of
`find_faces`, which performs no detector call at all. -/
theorem detector_calls_locked (storageNull : Bool) (numFaces : Nat) :
    guardedFrom 0 (find_faces_events storageNull) = true ∧
    guardedFrom 0 (draw_faces_events numFaces) = true := by
  constructor
  · cases storageNull <;> rfl
  · induction numFaces with
    | zero => rfl
    | succ n ih =>
        simpa [draw_faces_events, List.replicate_succ, guardedFrom] using ih

/-- Outcome of `recieve_response` (uqfaceclient.c lines 336-381): a
communication error (exit code 9), an operation-3 error reply (message
printed to stderr, exit code 11), or an operation-2 image reply whose
payload goes to the chosen output. -/
inductive ClientOutcome where
  | commError
  | errExit (payload : List Nat)
  | imageOut (payload : List Nat)
deriving DecidableEq

/-- `recieve_response` of the client (uqfaceclient.c lines 336-381): read
four magic bytes, one operation byte and the four-byte little-endian
payload length, then exactly that many payload bytes; any short read or a
wrong magic value is a communication error, operation 2 is an image
reply, operation 3 an error reply, and anything else a communication
error.  (The client's `read_bytes`, lines 314-325, is byte-for-byte the
server's, modelled by `readBytes`.) -/
def recieve_response (resp : List Nat) : ClientOutcome :=
  match readBytes 4 resp with
  | none => ClientOutcome.commError
  | some (mw, r1) =>
      if le32dec mw ≠ MAGICVAL then ClientOutcome.commError
      else
        match read1 r1 with
        | none => ClientOutcome.commError
        | some (op, r2) =>
            match readBytes 4 r2 with
            | none => ClientOutcome.commError
            | some (szb, r3) =>
                match readBytes (le32dec szb) r3 with
                | none => ClientOutcome.commError
                | some (img, _) =>
                    if op = 2 then ClientOutcome.imageOut img
                    else if op = 3 then ClientOutcome.errExit img
                    else ClientOutcome.commError

/-- Observable client events: opening the output file for writing (which
creates or truncates it), connecting, sending the request, writing image
bytes to the output file, exiting with a code. -/
inductive ClientEvent where
  | truncateOutput
  | connectServer
  | sendRequest
  | writeOutput (bytes : List Nat)
  | exitWith (code : Nat)
deriving DecidableEq

/-- The run of the client `main` (uqfaceclient.c lines 420-449) for a run
in which the output file opens successfully, as a trace of events on the
named output file and the socket.  `check_files` (lines 171-177) opens
the output file with mode `"w"` — creating or truncating it to zero
bytes — before `check_port` connects (line 424) and before the request
is sent (line 440).  Then the reply decides the end: operation 2 reopens
the output file with `O_TRUNC` and writes the payload (lines 357-369),
operation 3 prints the message and exits with code 11 (`ERROR_MESSAGE`,
lines 370-376), anything else exits with code 9. -/
def client_run (outGiven : Bool) (resp : List Nat) : List ClientEvent :=
  (if outGiven then [ClientEvent.truncateOutput] else [])
    ++ [ClientEvent.connectServer, ClientEvent.sendRequest]
    ++ match recieve_response resp with
       | ClientOutcome.commError => [ClientEvent.exitWith 9]
       | ClientOutcome.errExit _ => [ClientEvent.exitWith 11]
       | ClientOutcome.imageOut img =>
           (if outGiven then [ClientEvent.writeOutput img] else [])
             ++ [ClientEvent.exitWith 0]

/-- Effect of one client event on the content of the named output file
(`none`: the file does not exist). -/
def applyFsEvent (content : Option (List Nat)) (e : ClientEvent) :
    Option (List Nat) :=
  match e with
  | ClientEvent.truncateOutput => some []
  | ClientEvent.writeOutput bs => some bs
  | _ => content

/-- Content of the named output file after a trace of client events. -/
def outputFileAfter (init : Option (List Nat)) (events : List ClientEvent) :
    Option (List Nat) :=
  events.foldl applyFsEvent init

/-- C10: with `--outputfilename` given, the client truncates the output
file during its startup preflight, before connecting and before sending
the request; when the server replies with an operation-3 error frame the
client exits with code 11 without writing to the file, so whatever the
file held before, it is left existing and zero bytes long. -/
theorem error_reply_leaves_truncated_output (resp payload : List Nat)
    (init : Option (List Nat))
    (h : recieve_response resp = ClientOutcome.errExit payload) :
    client_run true resp
      = [ClientEvent.truncateOutput, ClientEvent.connectServer,
         ClientEvent.sendRequest, ClientEvent.exitWith 11] ∧
    outputFileAfter init (client_run true resp) = some [] := by
  have hr : client_run true resp
      = [ClientEvent.truncateOutput, ClientEvent.connectServer,
         ClientEvent.sendRequest, ClientEvent.exitWith 11] := by
    simp [client_run, h]
  exact ⟨hr, by rw [hr]; rfl⟩

/-- Concrete instance of `error_reply_leaves_truncated_output`: an
operation-3 reply carrying one byte leaves a previously three-byte output
file empty. -/
theorem error_reply_leaves_truncated_output_witness :
    client_run true (magicBytes ++ [3] ++ le32 1 ++ [65])
      = [ClientEvent.truncateOutput, ClientEvent.connectServer,
         ClientEvent.sendRequest, ClientEvent.exitWith 11] ∧
    outputFileAfter (some [1, 2, 3])
        (client_run true (magicBytes ++ [3] ++ le32 1 ++ [65]))
      = some [] :=
  error_reply_leaves_truncated_output (magicBytes ++ [3] ++ le32 1 ++ [65])
    [65] (some [1, 2, 3]) (by decide)
